import Mathlib

/-!
# Verification of the agentic-RAG control loop

Shallow embedding of the agent state machine of
`backend/src/services/agent/` (query generation, tool routing, document
grading, bounded question rewriting, answer generation) together with the
graph driver that wires the nodes (`agent.py`, `_build_graph`/`run`).

Conventions of the embedding:
* Counters (`search_count`, `max_searches`, `rewrite_count`, `max_rewrites`)
  are Python ints, modelled as `Int`.
* Messages are the coerced message objects that live inside the graph state:
  role dicts written by `Agent.run` / the rewrite node become `system` /
  `human` messages when merged into the state, model responses are `ai`
  messages (possibly carrying tool calls), and tool results are `tool`
  messages.
* `time.time()` timestamps on processing steps are wall-clock values and are
  omitted from the `Step` record; no property below mentions them.
* Python `str.strip()` is modelled by `pyStrip`, `str.split(sep)` by
  `pySplit` and `str.lower()` by `pyLower` (kernel-computable definitions
  below); `s[:n]` is `String.take`.
* External model and retrieval calls are oracles: arbitrary functions
  supplied to the driver, so every theorem quantifies over every possible
  behaviour of the external model.
-/

namespace AgenticRag

/-- A tool-call request carried by an assistant message (`tool_calls[i]`);
only the `name` field is inspected by the routing code (`args` is passed to
the tool opaquely and never examined by the control loop). -/
structure ToolCall where
  name : String
  deriving Repr, DecidableEq

/-- A message of the conversation as it exists inside the graph state:
`system`/`human` are the coerced role dicts, `ai` is a model response
(an `AIMessage`, with its `tool_calls` list), `tool` is a tool-response
message. -/
inductive Msg where
  | system (content : String)
  | human (content : String)
  | ai (content : String) (tool_calls : List ToolCall)
  | tool (content : String)
  deriving Repr, DecidableEq

/-- The `content` attribute, present on every message shape. -/
def Msg.content : Msg → String
  | .system c => c
  | .human c => c
  | .ai c _ => c
  | .tool c => c

/-- Python whitespace for `str.strip()` (space, tab, newline, carriage
return, vertical tab, form feed). -/
def isPySpace (c : Char) : Bool :=
  c = ' ' || c = '\t' || c = '\n' || c = '\r' || c = '\x0b' || c = '\x0c'

/-- Kernel-computable model of Python `str.strip()`: drop whitespace from
both ends. -/
def pyStrip (s : String) : String :=
  String.mk (((s.data.dropWhile isPySpace).reverse.dropWhile isPySpace).reverse)

/-- Worker for `pySplit`: scan the characters left to right keeping the
current chunk reversed in `acc`; whenever the consumed text ends with the
separator, the chunk before it is emitted and the scan restarts — this
realises leftmost non-overlapping matching, as Python `str.split` does. -/
def pySplitAux (sep : List Char) : List Char → List Char → List (List Char)
  | [], acc => [acc.reverse]
  | c :: rest, acc =>
      if sep.reverse.isPrefixOf (c :: acc) then
        ((c :: acc).drop sep.length).reverse :: pySplitAux sep rest []
      else
        pySplitAux sep rest (c :: acc)

/-- Kernel-computable model of Python `str.split(sep)` with a literal,
non-empty separator (the agent only splits on `"\n\n"`). -/
def pySplit (s : String) (sep : String) : List String :=
  if sep.data.isEmpty then [s]
  else (pySplitAux sep.data s.data []).map String.mk

/-- Kernel-computable model of Python `str.lower()` for the ASCII scores
the grader returns. -/
def pyLower (s : String) : String :=
  String.mk (s.data.map Char.toLower)

/-- One `processing_steps` audit entry `{step_name, status, details}`
(the `timestamp` field is wall-clock time and is not modelled). -/
structure Step where
  step_name : String
  status : String
  details : String
  deriving Repr, DecidableEq

/-- One `retrieved_documents` entry `{content, source, score}`.  The agent
only ever stores `score = None`, so the numeric type of a present score is
immaterial. -/
structure RetrievedDoc where
  content : String
  source : String
  score : Option Int
  deriving Repr, DecidableEq

/-- The `AgentState` threaded through every node
(`src/schema/llm/models.py`). -/
structure AgentState where
  messages : List Msg
  search_count : Int
  max_searches : Int
  rewrite_count : Int
  max_rewrites : Int
  processing_steps : List Step
  retrieved_documents : List RetrievedDoc
  deriving Repr, DecidableEq

/-- A node's partial state update (the dict a node returns); `none` means
the key is absent from the returned dict. -/
structure StateUpdate where
  messages : Option (List Msg) := none
  search_count : Option Int := none
  rewrite_count : Option Int := none
  processing_steps : Option (List Step) := none
  retrieved_documents : Option (List RetrievedDoc) := none
  deriving Repr, DecidableEq

/-- Content of the last message of a list (`messages[-1].content`); the
empty-history case never occurs in states the driver produces. -/
def lastContent (msgs : List Msg) : String :=
  (msgs.getLast?.map Msg.content).getD ""

/-- Content of the first message of a list (`messages[0].content`); this is
what the grading node uses as "the question". -/
def headContent (msgs : List Msg) : String :=
  (msgs.head?.map Msg.content).getD ""

/-- The question the grading node grades against:
`question = state["messages"][0].content`
(`document_grading.py`, line 48). -/
def graded_question (s : AgentState) : String :=
  headContent s.messages

/-- The content of the most recent `HumanMessage` in the history, scanning
from the end (`question_rewrite.py`, lines 36-42; the scan starts from
`HumanMessage(content="")`, hence the `""` default). -/
def lastHumanContent (msgs : List Msg) : String :=
  (msgs.reverse.findSome? fun m =>
    match m with
    | .human c => some c
    | _ => none).getD ""

/-- The first user question the answer node looks for: first `HumanMessage`
(or user-role dict) of the history, falling back to `messages[0].content`
(`answer_generation.py`, lines 44-59). -/
def firstQuestion (msgs : List Msg) : String :=
  match msgs.findSome? (fun m =>
    match m with
    | .human c => some c
    | _ => none) with
  | some q => q
  | none => if msgs.isEmpty then "Unknown question" else headContent msgs

/-- Whether a model response carries at least one tool call
(`isinstance(response, AIMessage) and response.tool_calls` — nonempty list). -/
def hasToolCalls : Msg → Bool
  | .ai _ (_ :: _) => true
  | _ => false

/-- The tool-call names of a response (`[tc.get("name") for tc in response.tool_calls]`). -/
def toolCallNames : Msg → List String
  | .ai _ tcs => tcs.map ToolCall.name
  | _ => []

/-- The fixed fallback assistant message returned when the search ceiling is
hit (`query_generation.py`, line 74). -/
def maxSearchesMessage : String :=
  "I've searched multiple times but couldn't find highly relevant information. Please try rephrasing your question or ask something else."

/-- `QueryGenerationNode.execute` (`query_generation.py`, lines 30-125).
`response` is the value the chat model would return for the current
history; the model is only consulted on the non-ceiling branch, where the
returned update records the response and the incremented counter. -/
def generate_query_or_response (response : Msg) (s : AgentState) : StateUpdate :=
  let steps0 := s.processing_steps ++
    [⟨"analyze_question", "completed",
      "Analyzing your question and determining search strategy"⟩]
  if s.search_count ≥ s.max_searches then
    { messages := some [Msg.ai maxSearchesMessage []],
      search_count := some s.search_count,
      processing_steps := some (steps0 ++
        [⟨"max_searches_reached", "completed",
          "Maximum search attempts (" ++ toString s.max_searches ++ ") reached"⟩]) }
  else
    let steps1 :=
      if hasToolCalls response then
        steps0 ++
          [⟨"prepare_search", "completed",
            "Preparing to search using: " ++
              String.intercalate ", " (toolCallNames response)⟩]
      else steps0
    { messages := some [response],
      search_count := some (s.search_count + 1),
      processing_steps := some steps1 }

/-- Outcome of the routing edge selector: the name of a retrieval tool's
node, or the `END` sentinel. -/
inductive RouteDecision where
  | toTool (name : String)
  | toEnd
  deriving Repr, DecidableEq

/-- `Tools.route_tools` (`tools.py`, lines 182-248).  `valid_tool_names` is
`[vs["name"] for vs in self.vector_stores]`.  An empty history raises
`ValueError` (`.error ()`); otherwise only the last message is examined:
an `AIMessage` with a nonempty `tool_calls` list routes on the FIRST
tool call's name, anything else (including the `search_count == 0` case,
which only changes the log severity) returns `END`. -/
def route_tools (valid_tool_names : List String) (s : AgentState) :
    Except Unit RouteDecision :=
  match s.messages.getLast? with
  | none => .error ()
  | some ai_message =>
    match ai_message with
    | .ai _ (tool_call :: _) =>
      if valid_tool_names.contains tool_call.name then
        .ok (.toTool tool_call.name)
      else
        .ok .toEnd
    | _ => .ok .toEnd

/-- The loop body of `create_safe_tool_wrapper` that stores the split
passages (`tools.py`, lines 134-144): each chunk of `doc_chunks[:5]` whose
strip is non-empty is appended as `{content: chunk.strip(), source:
tool_name, score: None}`. -/
def store_chunks (tool_name : String) : List String → List RetrievedDoc
  | [] => []
  | chunk :: rest =>
    if pyStrip chunk ≠ "" then
      ⟨pyStrip chunk, tool_name, none⟩ :: store_chunks tool_name rest
    else
      store_chunks tool_name rest

/-- `safe_tool_execution` inside `Tools.create_safe_tool_wrapper`
(`tools.py`, lines 94-180), on the non-raising path.  `result_messages` is
`result["messages"]` from `tool_node.invoke(state)`; an empty list models a
result with no (or falsy) `"messages"`. -/
def safe_tool_execution (tool_name : String) (result_messages : List Msg)
    (s : AgentState) : StateUpdate :=
  let steps0 := s.processing_steps ++
    [⟨"search_documents", "in_progress",
      "Searching " ++ tool_name ++ " for relevant documents"⟩]
  match result_messages.getLast? with
  | some last_msg =>
    let content := last_msg.content
    let doc_chunks := pySplit content "\n\n"
    let docs := s.retrieved_documents ++ store_chunks tool_name (doc_chunks.take 5)
    { messages := some result_messages,
      processing_steps := some (steps0 ++
        [⟨"search_documents", "completed",
          "Found " ++ toString doc_chunks.length ++ " relevant passages from " ++
            tool_name⟩]),
      retrieved_documents := some docs }
  | none =>
    { messages := some result_messages,
      processing_steps := some (steps0 ++
        [⟨"search_documents", "completed", "No documents found in " ++ tool_name⟩]),
      retrieved_documents := some s.retrieved_documents }

/-- The grading prompt `AgentPrompt.grade_prompt.format(question=..., context=...)`
(`prompts.py`; `document_grading.py` line 97 truncates the context to 2000
characters before formatting). -/
def grade_prompt_fmt (question context : String) : String :=
  "You are a grader assessing relevance of retrieved documents to a user question. \n" ++
  "Here is the retrieved content: \n\n " ++ context ++ " \n\n" ++
  "Here is the user question: " ++ question ++ " \n\n" ++
  "Grade as 'yes' if ANY of the following are true:\n" ++
  "- The content contains keywords related to the question\n" ++
  "- The content discusses topics related to the question's domain\n" ++
  "- The content provides context that could help answer the question\n" ++
  "- The content is from a similar subject area as the question\n\n" ++
  "Only grade as 'no' if the content is completely unrelated or off-topic.\n" ++
  "Be lenient - partial relevance is acceptable.\n" ++
  "Respond with 'yes' or 'no'."

/-- `DocumentGradingNode.execute` (`document_grading.py`, lines 31-163).
`grader` is the structured-output model call: given the formatted prompt it
either returns the `binary_score` string or raises (`.error ()`).  The
function returns the transition label together with the `processing_steps`
list it extended in place. -/
def document_grading_execute (grader : String → Except Unit String)
    (s : AgentState) : String × List Step :=
  let steps0 := s.processing_steps ++
    [⟨"grade_documents", "in_progress", "Evaluating relevance of retrieved documents"⟩]
  let question := graded_question s
  let context := lastContent s.messages
  let context_length := (pyStrip context).length
  if context_length < 50 then
    let steps1 := steps0 ++
      [⟨"grade_documents", "completed", "No relevant documents found"⟩]
    if s.rewrite_count ≥ s.max_rewrites then
      ("generate_answer", steps1)
    else
      ("rewrite_question", steps1)
  else
    let binary_score :=
      match grader (grade_prompt_fmt question (context.take 2000)) with
      | .ok score => score
      | .error _ => "yes"
    if pyLower binary_score == "yes" then
      ("generate_answer", steps0 ++
        [⟨"grade_documents", "completed", "Documents are relevant to your question"⟩])
    else if s.rewrite_count ≥ s.max_rewrites then
      ("generate_answer", steps0 ++
        [⟨"grade_documents", "completed",
          "Using available documents despite lower relevance"⟩])
    else
      ("rewrite_question", steps0 ++
        [⟨"grade_documents", "completed",
          "Documents not highly relevant, refining search"⟩])

/-- The rewrite prompt `AgentPrompt.rewrite_prompt.format(question=...)`
(`prompts.py`). -/
def rewrite_prompt_fmt (question : String) : String :=
  "Analyze the following question and rephrase it to make it clearer and more specific " ++
  "for document retrieval, while maintaining the core intent.\n\n" ++
  "Original question: " ++ question ++ "\n\n" ++
  "Guidelines for rewriting:\n" ++
  "- Keep the main topic and intent unchanged\n" ++
  "- Add synonyms or related terms that might appear in documents\n" ++
  "- Make it more general if it's too specific, or add context if it's too vague\n" ++
  "- Use common terminology that would appear in formal documents\n" ++
  "- Keep it concise (1-2 sentences maximum)\n\n" ++
  "Rewritten question:"

/-- `QuestionRewriteNode.execute` (`question_rewrite.py`, lines 32-101).
`rewritten` is the content of the model response to the rewrite prompt;
`system_prompt` is `self.response_model.system_prompt`.  The new message
dicts are recorded in their coerced `system`/`human` form. -/
def rewrite_question_execute (rewritten : String) (system_prompt : String)
    (s : AgentState) : StateUpdate :=
  if s.rewrite_count ≥ s.max_rewrites then
    { messages := some s.messages,
      rewrite_count := some s.rewrite_count,
      processing_steps := some s.processing_steps }
  else
    let steps1 := s.processing_steps ++
      [⟨"rewrite_question", "in_progress",
        "Refining question for better retrieval (attempt " ++
          toString (s.rewrite_count + 1) ++ "/" ++ toString s.max_rewrites ++ ")"⟩,
       ⟨"rewrite_question", "completed",
        "Question refined for better document matching"⟩]
    { messages := some [Msg.system system_prompt, Msg.human rewritten],
      rewrite_count := some (s.rewrite_count + 1),
      search_count := some 0,
      processing_steps := some steps1 }

/-- `AnswerGenerationNode.execute` (`answer_generation.py`, lines 30-111).
`answer_model` is the grader-model completion call (no tools bound): given
the built prompt it returns the answer content. -/
def generate_answer_execute (answer_model : String → String)
    (s : AgentState) : StateUpdate :=
  let steps0 := s.processing_steps ++
    [⟨"generate_answer", "in_progress",
      "Generating comprehensive answer from retrieved context"⟩]
  let question := firstQuestion s.messages
  let context := lastContent s.messages
  let prompt :=
    if (pyStrip context).length < 50 then
      "I couldn't find relevant information in the database to answer: " ++ question ++
        "\n\nPlease provide a brief, helpful response suggesting the user try rephrasing their question."
    else
      "Answer this question based ONLY on the context provided below. " ++
        "Be direct and concise (2-4 sentences).\n\n" ++
        "Question: " ++ question ++ "\n\nContext:\n" ++ context.take 3000 ++
        "\n\nAnswer:"
  let response := answer_model prompt
  { messages := some [Msg.ai response []],
    processing_steps := some (steps0 ++
      [⟨"generate_answer", "completed", "Answer generated successfully"⟩]) }

/-- Immutable agent configuration: the names of the configured vector-store
tools (`[vs["name"] for vs in self.tools.vector_stores]`, `agent.py`) and
the fixed system prompt (`self.response_model.system_prompt`). -/
structure AgentConfig where
  tools : List String
  system_prompt : String

/-- The external capabilities consumed by the loop, as total functions so
that theorems below quantify over every possible external behaviour:
`query` is the tool-bound chat model on the current history, `tool` is
`tool_node.invoke(state)["messages"]` for a named tool, `grader` is the
structured-output grading call on the formatted prompt (which may raise),
`rewriter` and `answerer` are the plain completion calls of the rewrite and
answer nodes on their built prompts. -/
structure Oracle where
  query : List Msg → Msg
  tool : String → AgentState → List Msg
  grader : String → Except Unit String
  rewriter : String → String
  answerer : String → String

/-- Modelled from the spec: the graph driver (the compiled `StateGraph` of
`agent.py:_build_graph`, whose execution engine is not part of this
repository) merges each node's partial update into the state — fields
present in the update replace the state's fields, while `messages` is
"append-only within a turn" (spec, section 3 Data Model). -/
def applyAppend (s : AgentState) (u : StateUpdate) : AgentState :=
  { messages := s.messages ++ (u.messages.getD []),
    search_count := u.search_count.getD s.search_count,
    max_searches := s.max_searches,
    rewrite_count := u.rewrite_count.getD s.rewrite_count,
    max_rewrites := s.max_rewrites,
    processing_steps := u.processing_steps.getD s.processing_steps,
    retrieved_documents := u.retrieved_documents.getD s.retrieved_documents }

/-- Modelled from the spec: on rewrite the message history is "replaced
wholesale" by the update's message list (spec, section 3 Data Model and
section 4.5 step 3); the other fields merge as in `applyAppend`. -/
def applyReplace (s : AgentState) (u : StateUpdate) : AgentState :=
  { messages := u.messages.getD s.messages,
    search_count := u.search_count.getD s.search_count,
    max_searches := s.max_searches,
    rewrite_count := u.rewrite_count.getD s.rewrite_count,
    max_rewrites := s.max_rewrites,
    processing_steps := u.processing_steps.getD s.processing_steps,
    retrieved_documents := u.retrieved_documents.getD s.retrieved_documents }

/-- The control positions of the graph built by `_build_graph` (`agent.py`):
`generate_query_or_respond`, one node per configured tool, `rewrite_question`,
`generate_answer`, the terminal `END`, plus `failed` for a propagated
exception (an empty history reaching `route_tools`). -/
inductive Node where
  | route
  | toolExec (name : String)
  | rewriteQ
  | answerGen
  | done
  | failed
  deriving Repr, DecidableEq

/-- Modelled from the spec: one step of the driver loop — run the node at
the current position, merge its update, evaluate the outgoing (conditional)
edge of `_build_graph` (`agent.py`, lines 105-129).  Grading runs as the
conditional edge out of each tool node and its in-place
`processing_steps.append` calls are kept (the Python lists are aliased). -/
def stepD (cfg : AgentConfig) (o : Oracle) : Node × AgentState → Node × AgentState
  | (.route, s) =>
    let u := generate_query_or_response (o.query s.messages) s
    let s1 := applyAppend s u
    match route_tools cfg.tools s1 with
    | .error _ => (.failed, s1)
    | .ok (.toTool name) => (.toolExec name, s1)
    | .ok .toEnd => (.done, s1)
  | (.toolExec name, s) =>
    let u := safe_tool_execution name (o.tool name s) s
    let s1 := applyAppend s u
    let graded := document_grading_execute o.grader s1
    let s2 := { s1 with processing_steps := graded.2 }
    if graded.1 == "rewrite_question" then (.rewriteQ, s2) else (.answerGen, s2)
  | (.rewriteQ, s) =>
    let question := lastHumanContent s.messages
    let u := rewrite_question_execute (o.rewriter (rewrite_prompt_fmt question))
      cfg.system_prompt s
    (.route, applyReplace s u)
  | (.answerGen, s) =>
    let u := generate_answer_execute o.answerer s
    (.done, applyAppend s u)
  | (.done, s) => (.done, s)
  | (.failed, s) => (.failed, s)

/-- `k` iterations of the driver step. -/
def stepN (cfg : AgentConfig) (o : Oracle) : Nat → Node × AgentState → Node × AgentState
  | 0, ns => ns
  | k + 1, ns => stepN cfg o k (stepD cfg o ns)

/-- The initial state built by `AgenticRAG.run` (`agent.py`, lines 144-173):
system prompt, optional chat history (already in coerced message form), the
user prompt, and the hard-coded counters `search_count=0, max_searches=3,
rewrite_count=0, max_rewrites=1`. -/
def initial_state (cfg : AgentConfig) (chat_history : List Msg) (prompt : String) :
    AgentState :=
  { messages := Msg.system cfg.system_prompt :: (chat_history ++ [Msg.human prompt]),
    search_count := 0,
    max_searches := 3,
    rewrite_count := 0,
    max_rewrites := 1,
    processing_steps := [],
    retrieved_documents := [] }

/-- The driver's entry configuration: execution starts at
`generate_query_or_respond` (`workflow.add_edge(START, ...)`). -/
def initNS (cfg : AgentConfig) (chat_history : List Msg) (prompt : String) :
    Node × AgentState :=
  (.route, initial_state cfg chat_history prompt)

/-- The states the driver loop can pass through: the initial state of any
run, closed under driver steps. -/
inductive ReachableD (cfg : AgentConfig) (o : Oracle) : Node × AgentState → Prop where
  | init (chat_history : List Msg) (prompt : String) :
      ReachableD cfg o (initNS cfg chat_history prompt)
  | step {ns : Node × AgentState} :
      ReachableD cfg o ns → ReachableD cfg o (stepD cfg o ns)

/-- The driver-loop invariant: counters in range, the head of the history
is the system message, a `rewrite_question` position always has rewrite
budget left, and the failure position is never reached. -/
def Inv (cfg : AgentConfig) (ns : Node × AgentState) : Prop :=
  0 ≤ ns.2.search_count ∧ ns.2.search_count ≤ ns.2.max_searches ∧
  0 ≤ ns.2.rewrite_count ∧ ns.2.rewrite_count ≤ ns.2.max_rewrites ∧
  ns.2.messages.head? = some (.system cfg.system_prompt) ∧
  (ns.1 = .rewriteQ → ns.2.rewrite_count < ns.2.max_rewrites) ∧
  ns.1 ≠ .failed

/-- Rank of a control position in the termination measure. -/
def nodeRank : Node → Nat
  | .route => 1
  | .toolExec _ => 3
  | .rewriteQ => 2
  | .answerGen => 2
  | .done => 0
  | .failed => 0

/-- Termination measure for runs started by `AgenticRAG.run` (which fixes
`max_searches = 3` and `max_rewrites = 1`): remaining rewrite epochs weigh
15, remaining searches weigh 3, plus the position rank. -/
def measure3 (ns : Node × AgentState) : Nat :=
  (1 - ns.2.rewrite_count).toNat * 15 + 3 * (3 - ns.2.search_count).toNat +
    nodeRank ns.1

/-- The driver invariant together with the concrete ceilings of
`AgenticRAG.run`. -/
def Inv3 (cfg : AgentConfig) (ns : Node × AgentState) : Prop :=
  Inv cfg ns ∧ ns.2.max_searches = 3 ∧ ns.2.max_rewrites = 1

/-- Modelled from the spec (for comparison only): "Input: the question
(first user message)" — the content of the first user (human) message of
the conversation. -/
def spec_first_user_message (msgs : List Msg) : String :=
  (msgs.findSome? (fun m =>
    match m with
    | .human c => some c
    | _ => none)).getD ""

/-- Example configuration with one vector-store tool, used to instantiate
theorems at concrete inputs. -/
def cfgEx : AgentConfig :=
  { tools := ["search_documents_collection"], system_prompt := "SYS" }

/-- An oracle whose model responses never request a tool. -/
def trivOracle : Oracle :=
  { query := fun _ => .ai "plain answer" [],
    tool := fun _ _ => [],
    grader := fun _ => .ok "yes",
    rewriter := fun _ => "rewritten question",
    answerer := fun _ => "final answer" }

/-- An oracle that requests the configured tool and retrieves a context too
short to grade, driving the run through the rewrite node. -/
def shortCtxOracle : Oracle :=
  { query := fun _ => .ai "" [⟨"search_documents_collection"⟩],
    tool := fun _ _ => [.tool "ab"],
    grader := fun _ => .ok "no",
    rewriter := fun _ => "rewritten question",
    answerer := fun _ => "final answer" }

/-- A state whose search budget is exhausted, used to instantiate the
ceiling branch. -/
def exhaustedState : AgentState :=
  { messages := [Msg.system "SYS", Msg.human "What is attention?"],
    search_count := 3, max_searches := 3,
    rewrite_count := 0, max_rewrites := 1,
    processing_steps := [], retrieved_documents := [] }

/-- A state whose last tool response is shorter than 50 characters after
stripping. -/
def shortCtxState : AgentState :=
  { messages := [Msg.system "SYS", Msg.human "What is attention?",
      Msg.ai "" [⟨"search_documents_collection"⟩], Msg.tool "ab"],
    search_count := 1, max_searches := 3,
    rewrite_count := 0, max_rewrites := 1,
    processing_steps := [], retrieved_documents := [] }

/-- A state whose last message is a model response requesting the
configured tool. -/
def pendingToolCallState : AgentState :=
  { messages := [Msg.system "SYS", Msg.human "What is attention?",
      Msg.ai "" [⟨"search_documents_collection"⟩]],
    search_count := 1, max_searches := 3,
    rewrite_count := 0, max_rewrites := 1,
    processing_steps := [], retrieved_documents := [] }

/-- A state whose last tool response is 50 characters or longer after
stripping (the string below has 72 characters). -/
def longCtxState : AgentState :=
  { messages := [Msg.system "SYS", Msg.human "What is attention?",
      Msg.ai "" [⟨"search_documents_collection"⟩],
      Msg.tool "Attention weighs token interactions via query, key and value projections."],
    search_count := 1, max_searches := 3,
    rewrite_count := 0, max_rewrites := 1,
    processing_steps := [], retrieved_documents := [] }

/-- How the query node together with the merge changes the state: counters
move as the two branches dictate and exactly one message is appended. -/
lemma applyAppend_gqr (resp : Msg) (s : AgentState) :
    (applyAppend s (generate_query_or_response resp s)).search_count =
      (if s.search_count ≥ s.max_searches then s.search_count else s.search_count + 1) ∧
    (applyAppend s (generate_query_or_response resp s)).rewrite_count = s.rewrite_count ∧
    (applyAppend s (generate_query_or_response resp s)).max_searches = s.max_searches ∧
    (applyAppend s (generate_query_or_response resp s)).max_rewrites = s.max_rewrites ∧
    ∃ m, (applyAppend s (generate_query_or_response resp s)).messages = s.messages ++ [m] := by
  unfold generate_query_or_response applyAppend
  split
  · simp_all
  · by_cases h : hasToolCalls resp <;> simp_all

/-- The tool wrapper never touches the counters and only appends messages. -/
lemma applyAppend_tool (name : String) (msgs : List Msg) (s : AgentState) :
    (applyAppend s (safe_tool_execution name msgs s)).search_count = s.search_count ∧
    (applyAppend s (safe_tool_execution name msgs s)).rewrite_count = s.rewrite_count ∧
    (applyAppend s (safe_tool_execution name msgs s)).max_searches = s.max_searches ∧
    (applyAppend s (safe_tool_execution name msgs s)).max_rewrites = s.max_rewrites ∧
    (applyAppend s (safe_tool_execution name msgs s)).messages = s.messages ++ msgs := by
  unfold safe_tool_execution applyAppend
  rcases h : msgs.getLast? with _ | m
  · have : msgs = [] := List.getLast?_eq_none_iff.mp h
    simp_all
  · simp_all

/-- The grading edge only returns its rewrite label while rewrite budget
remains. -/
lemma grading_rewrite_label (grader : String → Except Unit String) (s : AgentState)
    (h : (document_grading_execute grader s).1 = "rewrite_question") :
    s.rewrite_count < s.max_rewrites := by
  unfold document_grading_execute at h
  by_cases hb : s.rewrite_count ≥ s.max_rewrites
  · simp only [hb] at h
    split at h
    · simp_all
    · split at h
      · simp_all
      · split at h <;> simp_all
  · omega

/-- The no-op branch of the rewrite node leaves the merged state unchanged. -/
lemma applyReplace_rewrite_noop (rwc sp : String) (s : AgentState)
    (h : s.rewrite_count ≥ s.max_rewrites) :
    applyReplace s (rewrite_question_execute rwc sp s) = s := by
  unfold rewrite_question_execute applyReplace
  simp [h]

/-- The incrementing branch of the rewrite node: history replaced by the
two fresh messages, search budget reset, rewrite counter bumped. -/
lemma applyReplace_rewrite_inc (rwc sp : String) (s : AgentState)
    (h : ¬ s.rewrite_count ≥ s.max_rewrites) :
    (applyReplace s (rewrite_question_execute rwc sp s)).messages =
      [Msg.system sp, Msg.human rwc] ∧
    (applyReplace s (rewrite_question_execute rwc sp s)).search_count = 0 ∧
    (applyReplace s (rewrite_question_execute rwc sp s)).rewrite_count =
      s.rewrite_count + 1 ∧
    (applyReplace s (rewrite_question_execute rwc sp s)).max_searches = s.max_searches ∧
    (applyReplace s (rewrite_question_execute rwc sp s)).max_rewrites = s.max_rewrites := by
  unfold rewrite_question_execute applyReplace
  simp [h]

/-- Routing never raises on a non-empty history. -/
lemma route_tools_ok (v : List String) (s : AgentState) (h : s.messages ≠ []) :
    ∃ d, route_tools v s = .ok d := by
  unfold route_tools
  split
  · next hg => exact absurd (List.getLast?_eq_none_iff.mp hg) h
  · next m hg =>
    split
    · split
      · exact ⟨_, rfl⟩
      · exact ⟨_, rfl⟩
    · exact ⟨_, rfl⟩

/-- A history ending in an assistant message without tool calls routes to
`END`. -/
lemma route_tools_of_last_ai_nil (v : List String) (s : AgentState) (c : String)
    (h : s.messages.getLast? = some (.ai c [])) : route_tools v s = .ok .toEnd := by
  unfold route_tools
  rw [h]

/-- The answer node never touches the counters and only appends a message. -/
lemma applyAppend_answer (ans : String → String) (s : AgentState) :
    (applyAppend s (generate_answer_execute ans s)).search_count = s.search_count ∧
    (applyAppend s (generate_answer_execute ans s)).rewrite_count = s.rewrite_count ∧
    (applyAppend s (generate_answer_execute ans s)).max_searches = s.max_searches ∧
    (applyAppend s (generate_answer_execute ans s)).max_rewrites = s.max_rewrites ∧
    ∃ m, (applyAppend s (generate_answer_execute ans s)).messages = s.messages ++ [m] := by
  unfold generate_answer_execute applyAppend
  simp

/-- Unfolding equation for a driver step at `generate_query_or_respond`. -/
lemma stepD_route_eq (cfg : AgentConfig) (o : Oracle) (s : AgentState) :
    stepD cfg o (.route, s) =
      match route_tools cfg.tools
          (applyAppend s (generate_query_or_response (o.query s.messages) s)) with
      | .error _ =>
          (.failed, applyAppend s (generate_query_or_response (o.query s.messages) s))
      | .ok (.toTool name) =>
          (.toolExec name, applyAppend s (generate_query_or_response (o.query s.messages) s))
      | .ok .toEnd =>
          (.done, applyAppend s (generate_query_or_response (o.query s.messages) s)) := rfl

/-- Unfolding equation for a driver step at a tool node. -/
lemma stepD_tool_eq (cfg : AgentConfig) (o : Oracle) (name : String) (s : AgentState) :
    stepD cfg o (.toolExec name, s) =
      (if (document_grading_execute o.grader
            (applyAppend s (safe_tool_execution name (o.tool name s) s))).1 ==
          "rewrite_question"
       then (Node.rewriteQ,
         { applyAppend s (safe_tool_execution name (o.tool name s) s) with
           processing_steps := (document_grading_execute o.grader
             (applyAppend s (safe_tool_execution name (o.tool name s) s))).2 })
       else (Node.answerGen,
         { applyAppend s (safe_tool_execution name (o.tool name s) s) with
           processing_steps := (document_grading_execute o.grader
             (applyAppend s (safe_tool_execution name (o.tool name s) s))).2 })) := rfl

/-- Unfolding equation for a driver step at the rewrite node. -/
lemma stepD_rewrite_eq (cfg : AgentConfig) (o : Oracle) (s : AgentState) :
    stepD cfg o (.rewriteQ, s) =
      (.route, applyReplace s (rewrite_question_execute
        (o.rewriter (rewrite_prompt_fmt (lastHumanContent s.messages)))
        cfg.system_prompt s)) := rfl

/-- Unfolding equation for a driver step at the answer node. -/
lemma stepD_answer_eq (cfg : AgentConfig) (o : Oracle) (s : AgentState) :
    stepD cfg o (.answerGen, s) =
      (.done, applyAppend s (generate_answer_execute o.answerer s)) := rfl

/-- One driver step preserves the invariant and, away from the terminal
position, strictly decreases the termination measure. -/
lemma stepD_inv3 (cfg : AgentConfig) (o : Oracle) (ns : Node × AgentState)
    (h : Inv3 cfg ns) :
    Inv3 cfg (stepD cfg o ns) ∧
      (ns.1 ≠ Node.done → measure3 (stepD cfg o ns) < measure3 ns) := by
  obtain ⟨nd, s⟩ := ns
  obtain ⟨⟨h1, h2, h3, h4, hhead, hrwq, hfail⟩, hms3, hmr1⟩ := h
  simp only at h1 h2 h3 h4 hhead hrwq hfail hms3 hmr1
  obtain ⟨tail, htail⟩ : ∃ tail, s.messages = Msg.system cfg.system_prompt :: tail := by
    cases hm : s.messages with
    | nil => rw [hm] at hhead; simp at hhead
    | cons a t =>
      rw [hm] at hhead
      simp only [List.head?_cons, Option.some.injEq] at hhead
      exact ⟨t, by rw [hhead]⟩
  cases nd with
  | route =>
    obtain ⟨hsc, hrc, hms, hmr, m, hm⟩ := applyAppend_gqr (o.query s.messages) s
    set s1 := applyAppend s (generate_query_or_response (o.query s.messages) s)
      with hs1
    have hne1 : s1.messages ≠ [] := by rw [hm]; simp
    have hhead1 : s1.messages.head? = some (.system cfg.system_prompt) := by
      rw [hm, htail]; rfl
    by_cases hceil : s.search_count ≥ s.max_searches
    · have hsc' : s1.search_count = s.search_count := by rw [hsc, if_pos hceil]
      have hmsg1 : s1.messages = s.messages ++ [Msg.ai maxSearchesMessage []] := by
        rw [hs1]; unfold generate_query_or_response applyAppend; simp [hceil]
      have hlast : s1.messages.getLast? = some (.ai maxSearchesMessage []) := by
        rw [hmsg1]; simp
      have hroute := route_tools_of_last_ai_nil cfg.tools s1 maxSearchesMessage hlast
      have hstep : stepD cfg o (.route, s) = (.done, s1) := by
        rw [stepD_route_eq, ← hs1, hroute]
      rw [hstep]
      refine ⟨⟨⟨?_, ?_, ?_, ?_, hhead1, ?_, ?_⟩, ?_, ?_⟩, fun _ => ?_⟩
      · show 0 ≤ s1.search_count
        rw [hsc']; omega
      · show s1.search_count ≤ s1.max_searches
        rw [hsc', hms]; omega
      · show 0 ≤ s1.rewrite_count
        rw [hrc]; omega
      · show s1.rewrite_count ≤ s1.max_rewrites
        rw [hrc, hmr]; omega
      · intro hcon; exact absurd hcon (by simp)
      · simp
      · show s1.max_searches = 3
        rw [hms]; exact hms3
      · show s1.max_rewrites = 1
        rw [hmr]; exact hmr1
      · show measure3 (Node.done, s1) < measure3 (Node.route, s)
        simp only [measure3, nodeRank]
        rw [hsc', hrc]
        omega
    · have hsc' : s1.search_count = s.search_count + 1 := by rw [hsc, if_neg hceil]
      obtain ⟨d, hd⟩ := route_tools_ok cfg.tools s1 hne1
      cases d with
      | toTool name =>
        have hstep : stepD cfg o (.route, s) = (.toolExec name, s1) := by
          rw [stepD_route_eq, ← hs1, hd]
        rw [hstep]
        refine ⟨⟨⟨?_, ?_, ?_, ?_, hhead1, ?_, ?_⟩, ?_, ?_⟩, fun _ => ?_⟩
        · show 0 ≤ s1.search_count
          rw [hsc']; omega
        · show s1.search_count ≤ s1.max_searches
          rw [hsc', hms]; omega
        · show 0 ≤ s1.rewrite_count
          rw [hrc]; omega
        · show s1.rewrite_count ≤ s1.max_rewrites
          rw [hrc, hmr]; omega
        · intro hcon; exact absurd hcon (by simp)
        · simp
        · show s1.max_searches = 3
          rw [hms]; exact hms3
        · show s1.max_rewrites = 1
          rw [hmr]; exact hmr1
        · show measure3 (Node.toolExec name, s1) < measure3 (Node.route, s)
          simp only [measure3, nodeRank]
          rw [hsc', hrc]
          omega
      | toEnd =>
        have hstep : stepD cfg o (.route, s) = (.done, s1) := by
          rw [stepD_route_eq, ← hs1, hd]
        rw [hstep]
        refine ⟨⟨⟨?_, ?_, ?_, ?_, hhead1, ?_, ?_⟩, ?_, ?_⟩, fun _ => ?_⟩
        · show 0 ≤ s1.search_count
          rw [hsc']; omega
        · show s1.search_count ≤ s1.max_searches
          rw [hsc', hms]; omega
        · show 0 ≤ s1.rewrite_count
          rw [hrc]; omega
        · show s1.rewrite_count ≤ s1.max_rewrites
          rw [hrc, hmr]; omega
        · intro hcon; exact absurd hcon (by simp)
        · simp
        · show s1.max_searches = 3
          rw [hms]; exact hms3
        · show s1.max_rewrites = 1
          rw [hmr]; exact hmr1
        · show measure3 (Node.done, s1) < measure3 (Node.route, s)
          simp only [measure3, nodeRank]
          rw [hsc', hrc]
          omega
  | toolExec name =>
    obtain ⟨hsc, hrc, hms, hmr, hmsgs⟩ := applyAppend_tool name (o.tool name s) s
    set s1 := applyAppend s (safe_tool_execution name (o.tool name s) s) with hs1
    set s2 : AgentState :=
      { s1 with processing_steps := (document_grading_execute o.grader s1).2 }
      with hs2
    have hsc2 : s2.search_count = s.search_count := hsc
    have hrc2 : s2.rewrite_count = s.rewrite_count := hrc
    have hms2 : s2.max_searches = s.max_searches := hms
    have hmr2 : s2.max_rewrites = s.max_rewrites := hmr
    have hhead2 : s2.messages.head? = some (.system cfg.system_prompt) := by
      show s1.messages.head? = _
      rw [hmsgs, htail]; rfl
    by_cases hlabel : (document_grading_execute o.grader s1).1 = "rewrite_question"
    · have hstep : stepD cfg o (.toolExec name, s) = (.rewriteQ, s2) := by
        rw [stepD_tool_eq, ← hs1, hs2]
        simp [hlabel]
      rw [hstep]
      have hlt : s.rewrite_count < s.max_rewrites := by
        have := grading_rewrite_label o.grader s1 hlabel
        rw [hrc, hmr] at this
        exact this
      refine ⟨⟨⟨?_, ?_, ?_, ?_, hhead2, ?_, ?_⟩, ?_, ?_⟩, fun _ => ?_⟩
      · show 0 ≤ s2.search_count
        rw [hsc2]; omega
      · show s2.search_count ≤ s2.max_searches
        rw [hsc2, hms2]; omega
      · show 0 ≤ s2.rewrite_count
        rw [hrc2]; omega
      · show s2.rewrite_count ≤ s2.max_rewrites
        rw [hrc2, hmr2]; omega
      · intro _
        show s2.rewrite_count < s2.max_rewrites
        rw [hrc2, hmr2]; exact hlt
      · simp
      · show s2.max_searches = 3
        rw [hms2]; exact hms3
      · show s2.max_rewrites = 1
        rw [hmr2]; exact hmr1
      · show measure3 (Node.rewriteQ, s2) < measure3 (Node.toolExec name, s)
        simp only [measure3, nodeRank]
        rw [hsc2, hrc2]
        omega
    · have hstep : stepD cfg o (.toolExec name, s) = (.answerGen, s2) := by
        rw [stepD_tool_eq, ← hs1, hs2]
        simp [hlabel]
      rw [hstep]
      refine ⟨⟨⟨?_, ?_, ?_, ?_, hhead2, ?_, ?_⟩, ?_, ?_⟩, fun _ => ?_⟩
      · show 0 ≤ s2.search_count
        rw [hsc2]; omega
      · show s2.search_count ≤ s2.max_searches
        rw [hsc2, hms2]; omega
      · show 0 ≤ s2.rewrite_count
        rw [hrc2]; omega
      · show s2.rewrite_count ≤ s2.max_rewrites
        rw [hrc2, hmr2]; omega
      · intro hcon; exact absurd hcon (by simp)
      · simp
      · show s2.max_searches = 3
        rw [hms2]; exact hms3
      · show s2.max_rewrites = 1
        rw [hmr2]; exact hmr1
      · show measure3 (Node.answerGen, s2) < measure3 (Node.toolExec name, s)
        simp only [measure3, nodeRank]
        rw [hsc2, hrc2]
        omega
  | rewriteQ =>
    have hlt : s.rewrite_count < s.max_rewrites := hrwq rfl
    have hnoceil : ¬ s.rewrite_count ≥ s.max_rewrites := by omega
    obtain ⟨hm, hsc, hrc, hms, hmr⟩ := applyReplace_rewrite_inc
      (o.rewriter (rewrite_prompt_fmt (lastHumanContent s.messages)))
      cfg.system_prompt s hnoceil
    set s1 := applyReplace s (rewrite_question_execute
      (o.rewriter (rewrite_prompt_fmt (lastHumanContent s.messages)))
      cfg.system_prompt s) with hs1
    have hstep : stepD cfg o (.rewriteQ, s) = (.route, s1) := by
      rw [stepD_rewrite_eq, ← hs1]
    rw [hstep]
    refine ⟨⟨⟨?_, ?_, ?_, ?_, ?_, ?_, ?_⟩, ?_, ?_⟩, fun _ => ?_⟩
    · show 0 ≤ s1.search_count
      rw [hsc]
    · show s1.search_count ≤ s1.max_searches
      rw [hsc, hms]; omega
    · show 0 ≤ s1.rewrite_count
      rw [hrc]; omega
    · show s1.rewrite_count ≤ s1.max_rewrites
      rw [hrc, hmr]; omega
    · show s1.messages.head? = some (.system cfg.system_prompt)
      rw [hm]; rfl
    · intro hcon; exact absurd hcon (by simp)
    · simp
    · show s1.max_searches = 3
      rw [hms]; exact hms3
    · show s1.max_rewrites = 1
      rw [hmr]; exact hmr1
    · show measure3 (Node.route, s1) < measure3 (Node.rewriteQ, s)
      simp only [measure3, nodeRank]
      rw [hsc, hrc]
      omega
  | answerGen =>
    obtain ⟨hsc, hrc, hms, hmr, m, hm⟩ := applyAppend_answer o.answerer s
    set s1 := applyAppend s (generate_answer_execute o.answerer s) with hs1
    have hstep : stepD cfg o (.answerGen, s) = (.done, s1) := by
      rw [stepD_answer_eq, ← hs1]
    rw [hstep]
    refine ⟨⟨⟨?_, ?_, ?_, ?_, ?_, ?_, ?_⟩, ?_, ?_⟩, fun _ => ?_⟩
    · show 0 ≤ s1.search_count
      rw [hsc]; omega
    · show s1.search_count ≤ s1.max_searches
      rw [hsc, hms]; omega
    · show 0 ≤ s1.rewrite_count
      rw [hrc]; omega
    · show s1.rewrite_count ≤ s1.max_rewrites
      rw [hrc, hmr]; omega
    · show s1.messages.head? = some (.system cfg.system_prompt)
      rw [hm, htail]; rfl
    · intro hcon; exact absurd hcon (by simp)
    · simp
    · show s1.max_searches = 3
      rw [hms]; exact hms3
    · show s1.max_rewrites = 1
      rw [hmr]; exact hmr1
    · show measure3 (Node.done, s1) < measure3 (Node.answerGen, s)
      simp only [measure3, nodeRank]
      rw [hsc, hrc]
      omega
  | done =>
    have hstep : stepD cfg o (.done, s) = (.done, s) := rfl
    rw [hstep]
    exact ⟨⟨⟨h1, h2, h3, h4, hhead, fun hcon => absurd hcon (by simp),
      by simp⟩, hms3, hmr1⟩, fun hcon => absurd rfl hcon⟩
  | failed => exact absurd rfl hfail

/-- The invariant holds in the initial configuration of every run. -/
lemma inv3_init (cfg : AgentConfig) (chat_history : List Msg) (prompt : String) :
    Inv3 cfg (initNS cfg chat_history prompt) := by
  refine ⟨⟨?_, ?_, ?_, ?_, ?_, ?_, ?_⟩, rfl, rfl⟩ <;>
    simp [initNS, initial_state]

/-- Every state the driver can reach satisfies the invariant. -/
lemma reachable_inv3 (cfg : AgentConfig) (o : Oracle) (ns : Node × AgentState)
    (h : ReachableD cfg o ns) : Inv3 cfg ns := by
  induction h with
  | init hist q => exact inv3_init cfg hist q
  | step _ ih => exact (stepD_inv3 _ _ _ ih).1

/-- The terminal position is absorbing. -/
lemma stepN_done (cfg : AgentConfig) (o : Oracle) (k : Nat) (s : AgentState) :
    stepN cfg o k (.done, s) = (.done, s) := by
  induction k with
  | zero => rfl
  | succ k ih =>
    show stepN cfg o k (stepD cfg o (.done, s)) = _
    rw [show stepD cfg o (Node.done, s) = (Node.done, s) from rfl]
    exact ih

/-- Fuel bound: from any invariant state, at most `measure3` further steps
reach the terminal position. -/
lemma stepN_reaches_done (cfg : AgentConfig) (o : Oracle) :
    ∀ (k : Nat) (ns : Node × AgentState), Inv3 cfg ns → measure3 ns ≤ k →
      (stepN cfg o k ns).1 = Node.done := by
  intro k
  induction k with
  | zero =>
    intro ns hinv hm
    obtain ⟨nd, s⟩ := ns
    cases nd with
    | done => rfl
    | failed => exact absurd rfl hinv.1.2.2.2.2.2.2
    | route => exfalso; simp only [measure3, nodeRank] at hm; omega
    | toolExec name => exfalso; simp only [measure3, nodeRank] at hm; omega
    | rewriteQ => exfalso; simp only [measure3, nodeRank] at hm; omega
    | answerGen => exfalso; simp only [measure3, nodeRank] at hm; omega
  | succ k ih =>
    intro ns hinv hm
    by_cases hdone : ns.1 = Node.done
    · obtain ⟨nd, s⟩ := ns
      simp only at hdone
      subst hdone
      show (stepN cfg o k (stepD cfg o (.done, s))).1 = _
      rw [show stepD cfg o (Node.done, s) = (Node.done, s) from rfl, stepN_done]
    · obtain ⟨hinv', hdec⟩ := stepD_inv3 cfg o ns hinv
      have hlt := hdec hdone
      exact ih (stepD cfg o ns) hinv' (by omega)

/-- The measure of the initial configuration. -/
lemma measure3_init (cfg : AgentConfig) (chat_history : List Msg) (prompt : String) :
    measure3 (initNS cfg chat_history prompt) = 25 := by
  simp [measure3, initNS, initial_state, nodeRank]

/-- The wrapper stores no more entries than it was given chunks. -/
lemma store_chunks_length (t : String) (cs : List String) :
    (store_chunks t cs).length ≤ cs.length := by
  induction cs with
  | nil => simp [store_chunks]
  | cons c rest ih =>
    unfold store_chunks
    split
    · simp only [List.length_cons]; omega
    · simp only [List.length_cons]; omega

/-- Every stored entry is a non-blank stripped chunk tagged with the tool
name and no score. -/
lemma store_chunks_mem (t : String) (cs : List String) (d : RetrievedDoc)
    (hd : d ∈ store_chunks t cs) :
    d.source = t ∧ d.score = none ∧
      ∃ c ∈ cs, d.content = pyStrip c ∧ pyStrip c ≠ "" := by
  induction cs with
  | nil => simp [store_chunks] at hd
  | cons c rest ih =>
    unfold store_chunks at hd
    split at hd
    · next hne =>
      rcases List.mem_cons.mp hd with h1 | h2
      · subst h1
        exact ⟨rfl, rfl, c, List.mem_cons_self c rest, rfl, hne⟩
      · obtain ⟨hs, hsc, c', hc', hco, hn⟩ := ih h2
        exact ⟨hs, hsc, c', List.mem_cons_of_mem c hc', hco, hn⟩
    · obtain ⟨hs, hsc, c', hc', hco, hn⟩ := ih hd
      exact ⟨hs, hsc, c', List.mem_cons_of_mem c hc', hco, hn⟩

/-- C1: in every state the driver loop produces (whatever the external
model does), `0 ≤ search_count ≤ max_searches` and
`0 ≤ rewrite_count ≤ max_rewrites`; moreover the query node increments
`search_count` exactly when `search_count < max_searches` (returning it
unchanged at the ceiling), and the rewrite node increments `rewrite_count`
exactly when `rewrite_count < max_rewrites`. -/
theorem counter_invariants (cfg : AgentConfig) (o : Oracle)
    (ns : Node × AgentState) (h : ReachableD cfg o ns) :
    (0 ≤ ns.2.search_count ∧ ns.2.search_count ≤ ns.2.max_searches ∧
     0 ≤ ns.2.rewrite_count ∧ ns.2.rewrite_count ≤ ns.2.max_rewrites) ∧
    (∀ (resp : Msg) (s : AgentState), s.search_count < s.max_searches →
      (generate_query_or_response resp s).search_count = some (s.search_count + 1)) ∧
    (∀ (resp : Msg) (s : AgentState), s.search_count ≥ s.max_searches →
      (generate_query_or_response resp s).search_count = some s.search_count) ∧
    (∀ (rwc sp : String) (s : AgentState), s.rewrite_count < s.max_rewrites →
      (rewrite_question_execute rwc sp s).rewrite_count = some (s.rewrite_count + 1)) ∧
    (∀ (rwc sp : String) (s : AgentState), s.rewrite_count ≥ s.max_rewrites →
      (rewrite_question_execute rwc sp s).rewrite_count = some s.rewrite_count) := by
  obtain ⟨⟨h1, h2, h3, h4, _, _, _⟩, _, _⟩ := reachable_inv3 cfg o ns h
  refine ⟨⟨h1, h2, h3, h4⟩, ?_, ?_, ?_, ?_⟩
  · intro resp s hs
    unfold generate_query_or_response
    rw [if_neg (by omega : ¬ s.search_count ≥ s.max_searches)]
  · intro resp s hs
    unfold generate_query_or_response
    rw [if_pos hs]
  · intro rwc sp s hs
    unfold rewrite_question_execute
    rw [if_neg (by omega : ¬ s.rewrite_count ≥ s.max_rewrites)]
  · intro rwc sp s hs
    unfold rewrite_question_execute
    rw [if_pos hs]

/-- Witness for C1 at the initial state of a concrete run. -/
theorem counter_invariants_witness :
    0 ≤ (initNS cfgEx [] "hi").2.search_count ∧
    (initNS cfgEx [] "hi").2.search_count ≤ (initNS cfgEx [] "hi").2.max_searches ∧
    0 ≤ (initNS cfgEx [] "hi").2.rewrite_count ∧
    (initNS cfgEx [] "hi").2.rewrite_count ≤ (initNS cfgEx [] "hi").2.max_rewrites :=
  (counter_invariants cfgEx trivOracle (initNS cfgEx [] "hi")
    (ReachableD.init [] "hi")).1

/-- C2: the driver loop terminates for every run and every behaviour of
the external model and tools: starting from the initial state of
`AgenticRAG.run`, after at most 25 node visits the machine is at the
terminal `END` position. -/
theorem driver_terminates (cfg : AgentConfig) (o : Oracle)
    (chat_history : List Msg) (prompt : String) :
    (stepN cfg o 25 (initNS cfg chat_history prompt)).1 = Node.done :=
  stepN_reaches_done cfg o 25 (initNS cfg chat_history prompt)
    (inv3_init cfg chat_history prompt)
    (le_of_eq (measure3_init cfg chat_history prompt))

/-- C3: whenever the query node runs with `search_count ≥ max_searches`,
the step appends the analyze and "max searches reached" audit entries,
returns the fixed fallback assistant message, leaves `search_count`
unchanged, and the machine moves straight to the terminal position and
stays there — so neither the grading edge nor the answer node (which only
run from tool positions and the answer position) is ever invoked. -/
theorem max_searches_terminal (cfg : AgentConfig) (o : Oracle) (s : AgentState)
    (h : s.search_count ≥ s.max_searches) :
    stepD cfg o (.route, s) =
      (.done, { s with
        messages := s.messages ++ [Msg.ai maxSearchesMessage []],
        processing_steps := s.processing_steps ++
          [⟨"analyze_question", "completed",
            "Analyzing your question and determining search strategy"⟩,
           ⟨"max_searches_reached", "completed",
            "Maximum search attempts (" ++ toString s.max_searches ++ ") reached"⟩] }) ∧
    ∀ k, stepN cfg o k (stepD cfg o (.route, s)) = stepD cfg o (.route, s) := by
  have hstate : applyAppend s (generate_query_or_response (o.query s.messages) s) =
      { s with
        messages := s.messages ++ [Msg.ai maxSearchesMessage []],
        processing_steps := s.processing_steps ++
          [⟨"analyze_question", "completed",
            "Analyzing your question and determining search strategy"⟩,
           ⟨"max_searches_reached", "completed",
            "Maximum search attempts (" ++ toString s.max_searches ++ ") reached"⟩] } := by
    unfold generate_query_or_response applyAppend
    simp [h]
  have hlast : (applyAppend s
      (generate_query_or_response (o.query s.messages) s)).messages.getLast? =
      some (.ai maxSearchesMessage []) := by
    rw [hstate]; simp
  have hroute := route_tools_of_last_ai_nil cfg.tools
    (applyAppend s (generate_query_or_response (o.query s.messages) s))
    maxSearchesMessage hlast
  have hstep : stepD cfg o (.route, s) =
      (.done, applyAppend s (generate_query_or_response (o.query s.messages) s)) := by
    rw [stepD_route_eq, hroute]
  constructor
  · rw [hstep, hstate]
  · intro k
    rw [hstep, stepN_done]

/-- Witness for C3 at a concrete exhausted state. -/
theorem max_searches_terminal_witness :
    exhaustedState.search_count ≥ exhaustedState.max_searches ∧
    stepD cfgEx trivOracle (.route, exhaustedState) =
      (.done, { exhaustedState with
        messages := exhaustedState.messages ++ [Msg.ai maxSearchesMessage []],
        processing_steps := exhaustedState.processing_steps ++
          [⟨"analyze_question", "completed",
            "Analyzing your question and determining search strategy"⟩,
           ⟨"max_searches_reached", "completed",
            "Maximum search attempts (" ++ toString exhaustedState.max_searches ++
              ") reached"⟩] }) :=
  ⟨by decide,
    (max_searches_terminal cfgEx trivOracle exhaustedState (by decide)).1⟩

/-- C4: whenever the driver reaches the rewrite position, rewrite budget is
still available (the grading edge is the only way in, and it only selects
the rewrite transition while `rewrite_count < max_rewrites`), so the
executed rewrite resets `search_count` to 0, increments `rewrite_count` by
exactly 1 without exceeding `max_rewrites`, and replaces the whole message
history with exactly the system prompt followed by the rewritten question;
the no-op branch (taken only when `rewrite_count ≥ max_rewrites`, which is
unreachable here) returns an update without a `search_count` key — leaving
it untouched — and with `rewrite_count` unchanged. -/
theorem rewrite_resets_and_increments (cfg : AgentConfig) (o : Oracle)
    (ns : Node × AgentState) (h : ReachableD cfg o ns)
    (hn : ns.1 = Node.rewriteQ) :
    ns.2.rewrite_count < ns.2.max_rewrites ∧
    (stepD cfg o ns).1 = Node.route ∧
    (stepD cfg o ns).2.search_count = 0 ∧
    (stepD cfg o ns).2.rewrite_count = ns.2.rewrite_count + 1 ∧
    (stepD cfg o ns).2.rewrite_count ≤ ns.2.max_rewrites ∧
    (stepD cfg o ns).2.messages =
      [Msg.system cfg.system_prompt,
       Msg.human (o.rewriter (rewrite_prompt_fmt (lastHumanContent ns.2.messages)))] ∧
    (∀ (rwc sp : String) (s : AgentState), s.rewrite_count ≥ s.max_rewrites →
      (rewrite_question_execute rwc sp s).search_count = none ∧
      (rewrite_question_execute rwc sp s).rewrite_count = some s.rewrite_count) := by
  obtain ⟨nd, s⟩ := ns
  simp only at hn
  subst hn
  obtain ⟨⟨_, _, _, _, _, hrwq, _⟩, _, _⟩ := reachable_inv3 cfg o _ h
  have hlt : s.rewrite_count < s.max_rewrites := hrwq rfl
  have hnoceil : ¬ s.rewrite_count ≥ s.max_rewrites := by omega
  obtain ⟨hm, hsc, hrc, _, hmr⟩ := applyReplace_rewrite_inc
    (o.rewriter (rewrite_prompt_fmt (lastHumanContent s.messages)))
    cfg.system_prompt s hnoceil
  rw [stepD_rewrite_eq]
  refine ⟨hlt, rfl, hsc, hrc, ?_, hm, ?_⟩
  · show (applyReplace s (rewrite_question_execute
        (o.rewriter (rewrite_prompt_fmt (lastHumanContent s.messages)))
        cfg.system_prompt s)).rewrite_count ≤ s.max_rewrites
    rw [hrc]
    omega
  · intro rwc sp s' hs'
    unfold rewrite_question_execute
    rw [if_pos hs']
    exact ⟨rfl, rfl⟩

/-- A reachable state sitting at the rewrite position: the model requests
the configured tool, retrieval returns a context below the short-context
threshold, and grading selects the rewrite transition. -/
def rewriteReachedState : Node × AgentState :=
  stepD cfgEx shortCtxOracle
    (stepD cfgEx shortCtxOracle (initNS cfgEx [] "What is attention?"))

/-- Witness for C4 at a concrete reachable rewrite position. -/
theorem rewrite_resets_and_increments_witness :
    rewriteReachedState.1 = Node.rewriteQ ∧
    rewriteReachedState.2.rewrite_count < rewriteReachedState.2.max_rewrites ∧
    (stepD cfgEx shortCtxOracle rewriteReachedState).2.search_count = 0 ∧
    (stepD cfgEx shortCtxOracle rewriteReachedState).2.rewrite_count =
      rewriteReachedState.2.rewrite_count + 1 := by
  have h := rewrite_resets_and_increments cfgEx shortCtxOracle rewriteReachedState
    (ReachableD.step (ReachableD.step (ReachableD.init [] "What is attention?")))
    (by decide)
  exact ⟨by decide, h.1, h.2.2.1, h.2.2.2.1⟩

/-- C5: when the stripped tool-response content is shorter than 50
characters, the grading node decides deterministically without consulting
the grading model: the rewrite transition while
`rewrite_count < max_rewrites`, the answer transition otherwise — and the
whole result is identical for every grader behaviour. -/
theorem short_context_routes_deterministically
    (g1 g2 : String → Except Unit String) (s : AgentState)
    (h : (pyStrip (lastContent s.messages)).length < 50) :
    (document_grading_execute g1 s).1 =
      (if s.rewrite_count < s.max_rewrites then "rewrite_question"
       else "generate_answer") ∧
    document_grading_execute g1 s = document_grading_execute g2 s := by
  constructor
  · simp only [document_grading_execute]
    rw [if_pos h]
    by_cases hb : s.rewrite_count ≥ s.max_rewrites
    · rw [if_pos hb, if_neg (by omega : ¬ s.rewrite_count < s.max_rewrites)]
    · rw [if_neg hb, if_pos (by omega : s.rewrite_count < s.max_rewrites)]
  · simp only [document_grading_execute]
    rw [if_pos h, if_pos h]

/-- Witness for C5 at a concrete short-context grading state. -/
theorem short_context_routes_deterministically_witness :
    (pyStrip (lastContent shortCtxState.messages)).length < 50 ∧
    (document_grading_execute (fun _ => .ok "no") shortCtxState).1 =
      (if shortCtxState.rewrite_count < shortCtxState.max_rewrites
       then "rewrite_question" else "generate_answer") ∧
    document_grading_execute (fun _ => .ok "no") shortCtxState =
      document_grading_execute (fun _ => .error ()) shortCtxState := by
  have h := short_context_routes_deterministically (fun _ => .ok "no")
    (fun _ => .error ()) shortCtxState (by decide)
  exact ⟨by decide, h.1, h.2⟩

/-- C6: if the structured-output grading call raises, the grading node
behaves exactly as if the model had returned the judgment "yes" — the
returned label and the extended audit trail coincide — and the answer
transition is taken, so a grading failure never aborts the turn. -/
theorem grading_failure_fail_open (s : AgentState)
    (h : ¬ (pyStrip (lastContent s.messages)).length < 50) :
    document_grading_execute (fun _ => .error ()) s =
      document_grading_execute (fun _ => .ok "yes") s ∧
    (document_grading_execute (fun _ => .error ()) s).1 = "generate_answer" := by
  constructor
  · simp only [document_grading_execute]
  · simp only [document_grading_execute]
    rw [if_neg h]
    rfl

/-- Witness for C6 at a concrete long-context grading state. -/
theorem grading_failure_fail_open_witness :
    ¬ (pyStrip (lastContent longCtxState.messages)).length < 50 ∧
    (document_grading_execute (fun _ => .error ()) longCtxState).1 =
      "generate_answer" := by
  have h := grading_failure_fail_open longCtxState (by decide)
  exact ⟨by decide, h.2⟩

/-- C7 counterexample: the grading node's question is
`state["messages"][0].content`; in a conversation assembled by
`AgenticRAG.run` the first message is the system prompt, so at this
concrete grading state the graded question differs from the first user
message — refuting the claim that the judgment compares against the
question taken as the first user message. -/
theorem graded_question_counterexample :
    graded_question longCtxState ≠ spec_first_user_message longCtxState.messages ∧
    graded_question longCtxState = "SYS" ∧
    spec_first_user_message longCtxState.messages = "What is attention?" :=
  ⟨by decide, rfl, rfl⟩

/-- C7 amended: the grading node compares the latest tool-response content
against the content of the first message of the conversation — which in
every reachable driver state is the system prompt (`run` places it first
and the rewrite node re-inserts it first), not the first user message. -/
theorem graded_question_is_first_message (cfg : AgentConfig) (o : Oracle)
    (ns : Node × AgentState) (h : ReachableD cfg o ns) :
    graded_question ns.2 = cfg.system_prompt ∧
    ∀ (s : AgentState), graded_question s = headContent s.messages := by
  constructor
  · obtain ⟨⟨_, _, _, _, hhead, _, _⟩, _, _⟩ := reachable_inv3 cfg o ns h
    unfold graded_question headContent
    rw [hhead]
    rfl
  · intro s; rfl

/-- Witness for the amended C7 at the initial state of a concrete run. -/
theorem graded_question_is_first_message_witness :
    graded_question (initNS cfgEx [] "What is attention?").2 = cfgEx.system_prompt :=
  (graded_question_is_first_message cfgEx trivOracle _
    (ReachableD.init [] "What is attention?")).1

/-- C8: on every tool result carrying a response message, the wrapper
splits the returned text on blank-line boundaries and appends at most 5
entries to `retrieved_documents`, each with content equal to one stripped
passage, source equal to the invoked tool's name, and no score. -/
theorem tool_wrapper_appends_documents (tool_name : String)
    (result_messages : List Msg) (s : AgentState) (last : Msg)
    (h : result_messages.getLast? = some last) :
    (safe_tool_execution tool_name result_messages s).retrieved_documents =
      some (s.retrieved_documents ++
        store_chunks tool_name ((pySplit last.content "\n\n").take 5)) ∧
    (store_chunks tool_name ((pySplit last.content "\n\n").take 5)).length ≤ 5 ∧
    ∀ d ∈ store_chunks tool_name ((pySplit last.content "\n\n").take 5),
      d.source = tool_name ∧ d.score = none ∧
      ∃ c ∈ pySplit last.content "\n\n", d.content = pyStrip c := by
  refine ⟨?_, ?_, ?_⟩
  · unfold safe_tool_execution
    rw [h]
  · calc (store_chunks tool_name ((pySplit last.content "\n\n").take 5)).length
        ≤ ((pySplit last.content "\n\n").take 5).length :=
          store_chunks_length _ _
      _ ≤ 5 := by
          rw [List.length_take]
          exact Nat.min_le_left _ _
  · intro d hd
    obtain ⟨hs, hsc, c, hc, hco, _⟩ := store_chunks_mem _ _ _ hd
    exact ⟨hs, hsc, c, List.mem_of_mem_take hc, hco⟩

/-- Witness for C8 at a concrete two-passage tool result. -/
theorem tool_wrapper_appends_documents_witness :
    ([Msg.tool "p1\n\np2"] : List Msg).getLast? = some (Msg.tool "p1\n\np2") ∧
    (safe_tool_execution "search_documents_collection" [Msg.tool "p1\n\np2"]
        exhaustedState).retrieved_documents =
      some (exhaustedState.retrieved_documents ++
        store_chunks "search_documents_collection"
          ((pySplit (Msg.tool "p1\n\np2").content "\n\n").take 5)) := by
  have h := tool_wrapper_appends_documents "search_documents_collection"
    [Msg.tool "p1\n\np2"] exhaustedState (Msg.tool "p1\n\np2") rfl
  exact ⟨rfl, h.1⟩

/-- C9: routing is a pure decision over the last message — a tool-call
request naming a configured tool routes to that tool's node; an
unrecognized tool name, or a last message carrying no tool-call request
(whatever the attempt number), yields the terminal transition; hence a run
whose first model response carries no tool call ends after that single
query step with `search_count = 1`, no "search_documents" audit entry and
no retrieved documents. -/
theorem route_tools_pure_decision :
    (∀ (v : List String) (s : AgentState) (c : String) (tc : ToolCall)
        (rest : List ToolCall),
        s.messages.getLast? = some (.ai c (tc :: rest)) → v.contains tc.name →
        route_tools v s = .ok (.toTool tc.name)) ∧
    (∀ (v : List String) (s : AgentState) (c : String) (tc : ToolCall)
        (rest : List ToolCall),
        s.messages.getLast? = some (.ai c (tc :: rest)) → ¬ v.contains tc.name →
        route_tools v s = .ok .toEnd) ∧
    (∀ (v : List String) (s : AgentState) (c : String),
        s.messages.getLast? = some (.ai c []) → route_tools v s = .ok .toEnd) ∧
    (∀ (v : List String) (s : AgentState) (m : Msg),
        s.messages.getLast? = some m → (∀ c tcs, m ≠ .ai c tcs) →
        route_tools v s = .ok .toEnd) ∧
    (∀ (cfg : AgentConfig) (o : Oracle) (chat_history : List Msg)
        (prompt content : String),
        o.query = (fun _ => Msg.ai content []) →
        (stepD cfg o (initNS cfg chat_history prompt)).1 = Node.done ∧
        (stepD cfg o (initNS cfg chat_history prompt)).2.search_count = 1 ∧
        (∀ st ∈ (stepD cfg o (initNS cfg chat_history prompt)).2.processing_steps,
          st.step_name ≠ "search_documents") ∧
        (stepD cfg o (initNS cfg chat_history prompt)).2.retrieved_documents = []) := by
  refine ⟨?_, ?_, ?_, ?_, ?_⟩
  · intro v s c tc rest hlast hv
    unfold route_tools
    rw [hlast]
    simp only [if_pos hv]
  · intro v s c tc rest hlast hv
    unfold route_tools
    rw [hlast]
    simp only [if_neg hv]
  · intro v s c hlast
    unfold route_tools
    rw [hlast]
  · intro v s m hlast hne
    unfold route_tools
    rw [hlast]
    cases m with
    | ai c tcs => exact absurd rfl (hne c tcs)
    | system c => rfl
    | human c => rfl
    | tool c => rfl
  · intro cfg o hist q content hq
    rw [show initNS cfg hist q = (Node.route, initial_state cfg hist q) from rfl]
    have hresp : o.query (initial_state cfg hist q).messages = Msg.ai content [] := by
      rw [hq]
    have hc : ¬ (initial_state cfg hist q).search_count ≥
        (initial_state cfg hist q).max_searches := by
      norm_num [initial_state]
    have hgqr : generate_query_or_response (Msg.ai content [])
        (initial_state cfg hist q) =
        { messages := some [Msg.ai content []],
          search_count := some ((initial_state cfg hist q).search_count + 1),
          processing_steps := some ((initial_state cfg hist q).processing_steps ++
            [⟨"analyze_question", "completed",
              "Analyzing your question and determining search strategy"⟩]) } := by
      unfold generate_query_or_response
      rw [if_neg hc, show hasToolCalls (Msg.ai content []) = false from rfl]
      simp
    have hs1 : applyAppend (initial_state cfg hist q)
        (generate_query_or_response (o.query (initial_state cfg hist q).messages)
          (initial_state cfg hist q)) =
        { messages := (initial_state cfg hist q).messages ++ [Msg.ai content []],
          search_count := (initial_state cfg hist q).search_count + 1,
          max_searches := (initial_state cfg hist q).max_searches,
          rewrite_count := (initial_state cfg hist q).rewrite_count,
          max_rewrites := (initial_state cfg hist q).max_rewrites,
          processing_steps := (initial_state cfg hist q).processing_steps ++
            [⟨"analyze_question", "completed",
              "Analyzing your question and determining search strategy"⟩],
          retrieved_documents := (initial_state cfg hist q).retrieved_documents } := by
      rw [hresp, hgqr]
      unfold applyAppend
      simp
    have hlast : (applyAppend (initial_state cfg hist q)
        (generate_query_or_response (o.query (initial_state cfg hist q).messages)
          (initial_state cfg hist q))).messages.getLast? =
        some (Msg.ai content []) := by
      rw [hs1]
      simp
    have hroute := route_tools_of_last_ai_nil cfg.tools _ content hlast
    have hstep : stepD cfg o (.route, initial_state cfg hist q) =
        (.done, applyAppend (initial_state cfg hist q)
          (generate_query_or_response (o.query (initial_state cfg hist q).messages)
            (initial_state cfg hist q))) := by
      rw [stepD_route_eq, hroute]
    rw [hstep, hs1]
    refine ⟨rfl, ?_, ?_, ?_⟩
    · show (initial_state cfg hist q).search_count + 1 = 1
      norm_num [initial_state]
    · intro st hst
      simp only [initial_state, List.nil_append, List.mem_singleton] at hst
      subst hst
      decide
    · show (initial_state cfg hist q).retrieved_documents = []
      rfl

/-- Witness for C9 at a concrete pending tool call. -/
theorem route_tools_pure_decision_witness :
    pendingToolCallState.messages.getLast? =
      some (Msg.ai "" [⟨"search_documents_collection"⟩]) ∧
    cfgEx.tools.contains "search_documents_collection" = true ∧
    route_tools cfgEx.tools pendingToolCallState =
      .ok (.toTool "search_documents_collection") := by
  have h := route_tools_pure_decision
  exact ⟨rfl, by decide, h.1 cfgEx.tools pendingToolCallState ""
    ⟨"search_documents_collection"⟩ [] rfl (by decide)⟩

/-- C10: every entry the wrapper stores has non-empty content after
stripping (blank chunks are skipped), while the completed-search audit
entry reports the count of ALL blank-line chunks, which can exceed the
number of entries actually stored: at the concrete input below the audit
entry reports 3 passages but only 2 entries are stored. -/
theorem stored_documents_nonempty_count_mismatch :
    (∀ (t : String) (cs : List String) (d : RetrievedDoc),
        d ∈ store_chunks t cs → d.content ≠ "") ∧
    (safe_tool_execution "search_documents_collection"
        [Msg.tool "a\n\n\n\nb"] exhaustedState).processing_steps =
      some (exhaustedState.processing_steps ++
        [⟨"search_documents", "in_progress",
          "Searching search_documents_collection for relevant documents"⟩,
         ⟨"search_documents", "completed",
          "Found 3 relevant passages from search_documents_collection"⟩]) ∧
    ((safe_tool_execution "search_documents_collection"
        [Msg.tool "a\n\n\n\nb"] exhaustedState).retrieved_documents.getD []).length =
      2 := by
  refine ⟨?_, by decide, by decide⟩
  intro t cs d hd
  obtain ⟨_, _, c, _, hco, hne⟩ := store_chunks_mem t cs d hd
  rw [hco]
  exact hne

/-- Witness for C10 at a concrete chunk list. -/
theorem stored_documents_nonempty_count_mismatch_witness :
    (⟨"a", "search_documents_collection", none⟩ : RetrievedDoc) ∈
      store_chunks "search_documents_collection" ["a"] ∧
    (⟨"a", "search_documents_collection", none⟩ : RetrievedDoc).content ≠ "" := by
  have h := stored_documents_nonempty_count_mismatch
  exact ⟨by decide, h.1 "search_documents_collection" ["a"] _ (by decide)⟩

end AgenticRag
